import Mathlib

/-!
Verification of the MS5611-style barometric sensor driver in readTemp.c.

The C program is shallowly embedded as follows.

Integer model (target platform is a Raspberry Pi running Linux on ARM, the
only platform pigpio supports: char is unsigned, int is 32-bit, long and
long long are 64-bit):
- machine values are Lean Int (or Nat for bytes);
- assignment to int32_t, or usual-arithmetic-conversion results in int, is
  wrap32 (two's-complement wrap into -2^31 .. 2^31-1);
- conversion to a 32-bit unsigned operand is toU32 (reduction mod 2^32);
- conversion to a 64-bit unsigned operand (unsigned long / unsigned long
  long) is toU64 (reduction mod 2^64);
- the divisions in the source divide an int converted to an unsigned wide
  type by a power of two, so they are Int ediv on a nonnegative dividend,
  exactly the C unsigned division.

I2C transport model: each i2cWriteByte result and each i2cReadDevice result
(the returned byte count plus the bytes placed in the buffer) is an input.
exit(EXIT_FAILURE) is Except.error (); a function that returns normally is
Except.ok. Every operation also yields the list of bus transactions it
performed, in order, so that ordering claims can be stated.

Each definition mirrors one function of readTemp.c, named after it.
-/

/-- Reset command byte, readTemp.c line 6. -/
def CMD_RESET : Nat := 0x1E

/-- First PROM address, readTemp.c line 7. -/
def PROM_START : Nat := 0xA0

/-- Loop bound for PROM addresses (exclusive), readTemp.c line 8. -/
def PROM_STOP : Nat := 0xAE

/-- ADC read command, readTemp.c line 9. -/
def ADC_READ : Nat := 0x00

/-- Pressure conversion trigger at highest oversampling, readTemp.c line 11. -/
def CONVERT_D1_OSR8192 : Nat := 0x4A

/-- Temperature conversion trigger at highest oversampling, readTemp.c line 12. -/
def CONVERT_D2_OSR8192 : Nat := 0x5A

/-- Two's-complement wrap of an integer into a signed 32-bit value
(the effect of storing into int or int32_t). 2147483648 is 2^31 and
4294967296 is 2^32. -/
def wrap32 (x : Int) : Int := (x + 2147483648) % 4294967296 - 2147483648

/-- Conversion of an integer to a 32-bit unsigned value (u_int32_t or an
unsigned int operand). 4294967296 is 2^32. -/
def toU32 (x : Int) : Int := x % 4294967296

/-- Conversion of an integer to a 64-bit unsigned value (unsigned long or
unsigned long long operand on the 64-bit platform). 18446744073709551616
is 2^64. -/
def toU64 (x : Int) : Int := x % 18446744073709551616

/-- One bus transaction: an i2cWriteByte of a command byte, or an
i2cReadDevice of a requested byte count. -/
inductive BusEvent where
  | write : Nat → BusEvent
  | read : Nat → BusEvent
deriving DecidableEq

/-- Transport response to one PROM read iteration of getCalibData:
the i2cWriteByte return value, the i2cReadDevice return value (byte count),
and the two bytes the device would place in the buffer. -/
structure CalibResp where
  wr : Int
  rdCount : Int
  b0 : Nat
  b1 : Nat

/-- Transport responses for one conversion sequence (getRawTemp or
getRawPressure): the two i2cWriteByte return values, the i2cReadDevice
return value (byte count), and the three bytes the device would place in
the buffer. -/
structure RawResp where
  w1 : Int
  w2 : Int
  rdCount : Int
  b0 : Nat
  b1 : Nat
  b2 : Nat

/-- Bus trace of initGPIO, readTemp.c lines 30-50: after gpioInitialise and
i2cOpen (external collaborators, not bus transactions) it sends the single
reset command byte. A failed reset write is only perror-logged, so the
trace is this one write in every case. -/
def initGpioTrace : List BusEvent := [BusEvent.write CMD_RESET]

/-- Loop body of getCalibData, readTemp.c lines 61-76:
for (i = PROM_START; i < PROM_STOP; i = i + 2) write the PROM command i,
read 2 bytes into buf, and store proms[(i - PROM_START) / 2] =
(buf[0] << 8) | buf[1]. The fuel argument only bounds the recursion and is
instantiated large enough that the i < PROM_STOP test governs termination.
buf persists across iterations (it is declared once, before the loop), so
a short read of 1 byte leaves buf[1] at its previous value; the model
threads the buffer contents b0f, b1f through the loop. A negative-or-zero
read count or nonzero write result is exit(EXIT_FAILURE). On success the
result is the list of (prom index, stored 16-bit value) assignments in
order; each stored value is below 2^16 because buffer bytes are below
2^8, so the u_int16_t store truncates nothing. -/
def calibLoop (dev : Nat → CalibResp) :
    Nat → Nat → Nat → Nat → List BusEvent × Except Unit (List (Nat × Int))
  | 0, _, _, _ => ([], Except.ok [])
  | fuel + 1, i, b0f, b1f =>
    if i < PROM_STOP then
      let d := dev i
      if d.wr ≠ 0 then ([BusEvent.write i], Except.error ())
      else if d.rdCount ≤ 0 then ([BusEvent.write i, BusEvent.read 2], Except.error ())
      else
        let nb0 := if 1 ≤ d.rdCount then d.b0 % 256 else b0f
        let nb1 := if 2 ≤ d.rdCount then d.b1 % 256 else b1f
        let rest := calibLoop dev fuel (i + 2) nb0 nb1
        (BusEvent.write i :: BusEvent.read 2 :: rest.1,
          rest.2.map (fun l => ((i - PROM_START) / 2, (((nb0 <<< 8) ||| nb1 : Nat) : Int)) :: l))
    else ([], Except.ok [])

/-- getCalibData, readTemp.c lines 57-78: run the PROM loop from PROM_START
with a zero-initialised buffer. Fuel 14 = PROM_STOP - PROM_START covers
every iteration the loop guard allows. -/
def getCalibData (dev : Nat → CalibResp) : List BusEvent × Except Unit (List (Nat × Int)) :=
  calibLoop dev (PROM_STOP - PROM_START) PROM_START 0 0

/-- Raw temperature assembly, readTemp.c line 120:
rawTemp = (buf[0] << 16) | (buf[1] << 8) | (buf[2]), where buf holds
unsigned chars (ARM), computed in int, stored in int32_t and returned as
u_int32_t. Below 2^24 both conversions preserve the value; they are kept
explicit to mirror the source types. -/
def assembleRawTemp (b0 b1 b2 : Nat) : Int :=
  toU32 (wrap32 (((b0 <<< 16) ||| (b1 <<< 8) ||| b2 : Nat) : Int))

/-- Raw pressure assembly, readTemp.c line 201:
rawPressure = (buf[0] << 16) | (buf[1] << 8) | (buf[0]) - the third
received byte is never used; byte 0 fills both the top and bottom byte
positions. -/
def assembleRawPressure (b0 b1 _b2 : Nat) : Int :=
  toU32 (((b0 <<< 16) ||| (b1 <<< 8) ||| b0 : Nat) : Int)

/-- getRawTemp, readTemp.c lines 95-122: write CONVERT_D2_OSR8192, write
ADC_READ, read 3 bytes (exit on a write result other than 0 or a read
count at most 0), then assemble buf big-endian. buf is {0}-initialised
locally, and a read count of n updates only the first n bytes. -/
def getRawTemp (r : RawResp) : List BusEvent × Except Unit Int :=
  if r.w1 ≠ 0 then ([BusEvent.write CONVERT_D2_OSR8192], Except.error ())
  else if r.w2 ≠ 0 then
    ([BusEvent.write CONVERT_D2_OSR8192, BusEvent.write ADC_READ], Except.error ())
  else if r.rdCount ≤ 0 then
    ([BusEvent.write CONVERT_D2_OSR8192, BusEvent.write ADC_READ, BusEvent.read 3],
      Except.error ())
  else
    ([BusEvent.write CONVERT_D2_OSR8192, BusEvent.write ADC_READ, BusEvent.read 3],
      Except.ok (assembleRawTemp
        (if 1 ≤ r.rdCount then r.b0 % 256 else 0)
        (if 2 ≤ r.rdCount then r.b1 % 256 else 0)
        (if 3 ≤ r.rdCount then r.b2 % 256 else 0)))

/-- getRawPressure, readTemp.c lines 177-203: write CONVERT_D1_OSR8192,
write ADC_READ, read 3 bytes. The read guard is
i2cReadDevice(fd, buf, 3) <= 3 (line 195), so any count up to and
including the full 3 bytes is exit(EXIT_FAILURE); only a (physically
impossible) count above 3 reaches the assembly. -/
def getRawPressure (r : RawResp) : List BusEvent × Except Unit Int :=
  if r.w1 ≠ 0 then ([BusEvent.write CONVERT_D1_OSR8192], Except.error ())
  else if r.w2 ≠ 0 then
    ([BusEvent.write CONVERT_D1_OSR8192, BusEvent.write ADC_READ], Except.error ())
  else if r.rdCount ≤ 3 then
    ([BusEvent.write CONVERT_D1_OSR8192, BusEvent.write ADC_READ, BusEvent.read 3],
      Except.error ())
  else
    ([BusEvent.write CONVERT_D1_OSR8192, BusEvent.write ADC_READ, BusEvent.read 3],
      Except.ok (assembleRawPressure
        (if 1 ≤ r.rdCount then r.b0 % 256 else 0)
        (if 2 ≤ r.rdCount then r.b1 % 256 else 0)
        (if 3 ≤ r.rdCount then r.b2 % 256 else 0)))

/-- calcTempDiff, readTemp.c lines 131-136: dTemp = rawTemp - refTemp * (1U << 8)
with rawTemp a u_int32_t parameter and refTemp a u_int16_t parameter. The
subtraction happens in 32-bit unsigned arithmetic and the result is stored
into int, which is wrap32 of the mathematical difference. 256 is 1 << 8. -/
def calcTempDiff (rawTemp refTemp : Int) : Int :=
  wrap32 (rawTemp - refTemp * 256)

/-- calcTemp, readTemp.c lines 146-155: dTemp = calcTempDiff(rawTemp, proms[5])
(the int32_t rawTemp parameter is converted to the u_int32_t parameter of
calcTempDiff, hence toU32); then temp = 2000 + dTemp * proms[6] / (1UL << 23).
dTemp * proms[6] is an int * int product, so it wraps at 32 bits; the
wrapped product is then converted to unsigned long (64-bit) for the
division by 8388608 = 2^23, and the sum is stored back into int32_t.
The commented-out lines 152-153 (the second-order correction) do not
contribute. -/
def calcTemp (rawTemp : Int) (proms : Nat → Int) : Int :=
  let dTemp := calcTempDiff (toU32 rawTemp) (proms 5)
  let prod := wrap32 (dTemp * proms 6)
  wrap32 (2000 + toU64 prod / 8388608)

/-- power, readTemp.c lines 252-258, for the exponents at which the C
recursion terminates (the naturals): power(base, exp) = base * power(base,
exp - 1) for exp not 0, else 1, with each int multiplication wrapping at
32 bits. -/
def power (base : Int) : Nat → Int
  | 0 => 1
  | e + 1 => wrap32 (base * power base e)

/-- power, readTemp.c lines 252-258, as the C recursion itself: exp is an
arbitrary int and the recursion is bounded by fuel; none means the fuel
was exhausted without the recursion reaching its base case. The C call
stack is this fuel: a run that needs unbounded fuel is a crash (stack
exhaustion), not a value. -/
def powerFuel : Nat → Int → Int → Option Int
  | 0, _, _ => none
  | fuel + 1, base, exp =>
    if exp ≠ 0 then (powerFuel fuel base (exp - 1)).map (fun r => wrap32 (base * r))
    else some 1

/-- secondOrderTempComp, readTemp.c lines 164-172: below 2000 the
correction is 3 * power(dTemp, 2) / (1ULL << 32), otherwise
5 * power(dTemp, 2) / (1ULL << 38). The products 3 * ... and 5 * ... are
int products (wrap32); the quotient converts the int to unsigned long long
(toU64) and divides by 4294967296 = 2^32 or 274877906944 = 2^38; the
result is stored into int (wrap32). -/
def secondOrderTempComp (temp dTemp : Int) : Int :=
  if temp < 2000 then
    wrap32 (toU64 (wrap32 (3 * power dTemp 2)) / 4294967296)
  else
    wrap32 (toU64 (wrap32 (5 * power dTemp 2)) / 274877906944)

/-- calcPressOffsetAtTemp, readTemp.c lines 217-222:
pressOffsetAtTemp = pressOffset * (1U << 17) + (tempCoeffOfPressOffset * dTemp) / (1U << 6).
pressOffset * 131072 is an int times unsigned int, so it is computed mod
2^32; tempCoeffOfPressOffset * dTemp is an int product (wrap32) whose
result is converted to unsigned int (toU32) for the division by 64; the
unsigned 32-bit sum is then widened to the int64_t return value, which
preserves it. Despite the int64_t declaration, nothing here is computed
in 64 bits. -/
def calcPressOffsetAtTemp (dTemp pressOffset tempCoeffOfPressOffset : Int) : Int :=
  toU32 (toU32 (pressOffset * 131072) + toU32 (wrap32 (tempCoeffOfPressOffset * dTemp)) / 64)

/-- Calibration store handed to calcTemp by getTemp: proms[idx] is the
value getCalibData assigned to index idx (indices 0 to 6); other indices
are the uninitialised u_int16_t array cells of getTemp (readTemp.c line
81), modelled as 0 and never read by calcTemp. -/
def promsOf (stores : List (Nat × Int)) : Nat → Int :=
  fun idx => (stores.lookup idx).getD 0

/-- getTemp, readTemp.c lines 80-86: rawTemp = getRawTemp(fd) first, then
getCalibData(fd, proms), then calcTemp(rawTemp, proms). The u_int32_t
rawTemp is converted to the int32_t parameter of calcTemp (wrap32). An
exit inside either callee aborts the whole cycle at that point. -/
def getTemp (r : RawResp) (dev : Nat → CalibResp) : List BusEvent × Except Unit Int :=
  match getRawTemp r with
  | (t1, Except.error e) => (t1, Except.error e)
  | (t1, Except.ok rawTemp) =>
    match getCalibData dev with
    | (t2, Except.error e) => (t1 ++ t2, Except.error e)
    | (t2, Except.ok stores) =>
      (t1 ++ t2, Except.ok (calcTemp (wrap32 rawTemp) (promsOf stores)))

/-- Derived address/index list of the calibration loop: the prom indices
(i - PROM_START) / 2 the loop visits starting at address i with the given
fuel. Mirrors the control flow of calibLoop with the stores projected to
their indices; used to characterise calibLoop for an arbitrary
always-succeeding transport. -/
def calibIdxs : Nat → Nat → List Nat
  | 0, _ => []
  | fuel + 1, i =>
    if i < PROM_STOP then (i - PROM_START) / 2 :: calibIdxs fuel (i + 2) else []

/-- Derived transaction list of the calibration loop: the write/read pairs
the loop issues starting at address i with the given fuel, when no
transport call fails. -/
def calibTrace : Nat → Nat → List BusEvent
  | 0, _ => []
  | fuel + 1, i =>
    if i < PROM_STOP then
      BusEvent.write i :: BusEvent.read 2 :: calibTrace fuel (i + 2)
    else []

/-- A transport in which every write succeeds and every read returns the
full 2 bytes; PROM word 5 (address 0xAA) holds 0x7160 = 29024 (the
reference temperature of the specification scenario) and PROM word 6
(address 0xAC) holds 0x615E = 24926 (the temperature coefficient). -/
def devOK : Nat → CalibResp :=
  fun a =>
    ⟨0, 2,
      if a = 0xAA then 0x71 else if a = 0xAC then 0x61 else 0,
      if a = 0xAA then 0x60 else if a = 0xAC then 0x5E else 0⟩

/-- A transport whose PROM read at address 0xA0 is a short read: it
returns count 1 and delivers only the byte 0xFF; every other transaction
succeeds in full. -/
def devShort : Nat → CalibResp :=
  fun a => ⟨0, if a = 0xA0 then 1 else 2, if a = 0xA0 then 0xFF else 0, 0⟩

/-- Conversion responses delivering the specification scenario's raw
temperature bytes 0x82, 0x3C, 0x00 with a full 3-byte read. -/
def rOK : RawResp := ⟨0, 0, 3, 0x82, 0x3C, 0x00⟩

/-- Conversion responses whose ADC read is a short read: count 1, so only
byte 0x82 reaches the buffer and bytes 1 and 2 stay zero. -/
def rShort : RawResp := ⟨0, 0, 1, 0x82, 0x3C, 0x00⟩

/-- Conversion responses with a fully successful 3-byte read of the bytes
0x01, 0x02, 0x03. -/
def rFull : RawResp := ⟨0, 0, 3, 0x01, 0x02, 0x03⟩

/-- Conversion responses delivering raw temperature 0x71B208 = 7451144
(with the devOK calibration constants this makes dTemp = 21000 and an
uncorrected temperature of 2062). -/
def rC3 : RawResp := ⟨0, 0, 3, 0x71, 0xB2, 0x08⟩

/-- Calibration store of the specification scenario as a plain function:
referenceTemp 29024 at index 5 and tempCoeffOfTemperature 24926 at
index 6. -/
def promsRef : Nat → Int :=
  fun n => if n = 5 then 29024 else if n = 6 then 24926 else 0

/-- Calibration store with referenceTemp 0 and tempCoeffOfTemperature
24926, used to exhibit the 32-bit overflow of calcTemp's product. -/
def promsZeroRef : Nat → Int :=
  fun n => if n = 6 then 24926 else 0

/-! Helper lemmas about the integer model. -/

/-- wrap32 is the identity on values already in signed 32-bit range. -/
theorem wrap32_eq_self {x : Int} (h1 : -2147483648 ≤ x) (h2 : x < 2147483648) :
    wrap32 x = x := by
  unfold wrap32; omega

/-- wrap32 preserves the residue mod 2^32. -/
theorem wrap32_emod (x : Int) : wrap32 x % 4294967296 = x % 4294967296 := by
  unfold wrap32; omega

/-- wrap32 only depends on the residue mod 2^32. -/
theorem wrap32_congr {x y : Int} (h : x % 4294967296 = y % 4294967296) :
    wrap32 x = wrap32 y := by
  unfold wrap32; omega

/-- A wrapped factor inside a wrapped product can be unwrapped. -/
theorem wrap32_mul_wrap32 (a b : Int) : wrap32 (a * wrap32 b) = wrap32 (a * b) := by
  apply wrap32_congr
  conv_lhs => rw [Int.mul_emod, wrap32_emod, ← Int.mul_emod]

/-- power computes the wrapped natural power of its base. -/
theorem power_eq_wrap_pow (base : Int) (n : Nat) : power base n = wrap32 (base ^ n) := by
  induction n with
  | zero => simp [power, wrap32]
  | succ n ih =>
    calc power base (n + 1) = wrap32 (base * power base n) := rfl
      _ = wrap32 (base * wrap32 (base ^ n)) := by rw [ih]
      _ = wrap32 (base * base ^ n) := wrap32_mul_wrap32 base (base ^ n)
      _ = wrap32 (base ^ (n + 1)) := by rw [pow_succ, mul_comm]

/-- Fuel n + 1 suffices for powerFuel at a natural exponent n, and the
value is the one power computes. -/
theorem powerFuel_sufficient (base : Int) (n : Nat) :
    powerFuel (n + 1) base n = some (power base n) := by
  induction n with
  | zero => simp [powerFuel, power]
  | succ n ih =>
    have hne : ((n + 1 : Nat) : Int) ≠ 0 := by push_cast; omega
    have hsub : ((n + 1 : Nat) : Int) - 1 = (n : Int) := by push_cast; ring
    show (if ((n + 1 : Nat) : Int) ≠ 0 then
        (powerFuel (n + 1) base (((n + 1 : Nat) : Int) - 1)).map (fun r => wrap32 (base * r))
      else some 1) = some (power base (n + 1))
    rw [if_pos hne, hsub, ih]
    rfl

/-- No amount of fuel lets powerFuel finish on a negative exponent. -/
theorem powerFuel_neg (base : Int) :
    ∀ (fuel : Nat) (exp : Int), exp < 0 → powerFuel fuel base exp = none := by
  intro fuel
  induction fuel with
  | zero => intro exp h; rfl
  | succ f ih =>
    intro exp h
    have hne : exp ≠ 0 := by omega
    simp [powerFuel, hne, ih (exp - 1) (by omega)]

/-- Characterisation of the calibration loop for a transport whose writes
all succeed and whose reads all return a positive byte count: its
transaction trace and the prom indices it stores follow the loop bounds
alone, independent of buffer contents and of the received bytes. -/
theorem calibLoop_ok (dev : Nat → CalibResp)
    (h : ∀ a, (dev a).wr = 0 ∧ 0 < (dev a).rdCount) :
    ∀ (fuel i b0f b1f : Nat),
      (calibLoop dev fuel i b0f b1f).1 = calibTrace fuel i ∧
      (calibLoop dev fuel i b0f b1f).2.map (fun l => l.map Prod.fst) =
        Except.ok (calibIdxs fuel i) := by
  intro fuel
  induction fuel with
  | zero => intro i b0f b1f; exact ⟨rfl, rfl⟩
  | succ f ih =>
    intro i b0f b1f
    by_cases hi : i < PROM_STOP
    · have hw : (dev i).wr = 0 := (h i).1
      have hr : 0 < (dev i).rdCount := (h i).2
      have hwne : ¬((dev i).wr ≠ 0) := fun hc => hc hw
      have hrne : ¬((dev i).rdCount ≤ 0) := by omega
      obtain ⟨iht, ihr⟩ := ih (i + 2)
        (if 1 ≤ (dev i).rdCount then (dev i).b0 % 256 else b0f)
        (if 2 ≤ (dev i).rdCount then (dev i).b1 % 256 else b1f)
      simp only [calibLoop, if_pos hi, if_neg hwne, if_neg hrne]
      rcases hres : (calibLoop dev f (i + 2)
        (if 1 ≤ (dev i).rdCount then (dev i).b0 % 256 else b0f)
        (if 2 ≤ (dev i).rdCount then (dev i).b1 % 256 else b1f)).2 with e | l
      · rw [hres] at ihr
        simp only [Except.map] at ihr
        exact Except.noConfusion ihr
      · rw [hres] at ihr
        simp only [Except.map] at ihr
        injection ihr with ihr2
        constructor
        · simp only [calibTrace, if_pos hi]
          rw [iht]
        · simp only [Except.map, List.map_cons, calibIdxs, if_pos hi]
          rw [ihr2]
    · simp [calibLoop, hi, calibTrace, calibIdxs, Except.map]

/-- When the dTemp-coefficient product stays inside the signed 32-bit
range and dTemp is nonnegative, calcTemp computes the exact compensation
formula with no wrap anywhere. -/
theorem calcTemp_no_overflow (proms : Nat → Int) (raw : Int)
    (h5 : 0 ≤ proms 5)
    (h0 : 0 ≤ raw) (h24 : raw < 16777216)
    (hd0 : 0 ≤ raw - proms 5 * 256)
    (hp0 : 0 ≤ (raw - proms 5 * 256) * proms 6)
    (hplt : (raw - proms 5 * 256) * proms 6 < 2147483648) :
    calcTemp raw proms = 2000 + (raw - proms 5 * 256) * proms 6 / 8388608 := by
  have e1 : raw % 4294967296 = raw := Int.emod_eq_of_lt h0 (by omega)
  simp only [calcTemp, calcTempDiff, toU32, toU64, wrap32, e1]
  have e2 : (raw - proms 5 * 256 + 2147483648) % 4294967296 - 2147483648
      = raw - proms 5 * 256 := by omega
  rw [e2]
  generalize hA : (raw - proms 5 * 256) * proms 6 = A at hp0 hplt ⊢
  have e3 : (A + 2147483648) % 4294967296 - 2147483648 = A := by omega
  rw [e3]
  have e4 : A % 18446744073709551616 = A := by omega
  rw [e4]
  omega

/-- Every execution of getRawTemp begins its bus trace with the
temperature conversion trigger. -/
theorem getRawTemp_trace (r : RawResp) :
    ∃ t, (getRawTemp r).1 = BusEvent.write CONVERT_D2_OSR8192 :: t := by
  unfold getRawTemp
  split_ifs <;> exact ⟨_, rfl⟩

/-! Claim theorems. -/

/-- Claim C10: power terminates for every exponent of at least 0 - fuel
exp + 1 suffices and the value is the exp-fold wrapping 32-bit product of
base (power base exp, equal to wrap32 of base to the exp) - and does not
terminate for any negative exponent: every finite fuel is exhausted
without reaching the base case. secondOrderTempComp calls it with
exponent 2, where it is well defined. -/
theorem c10_power_termination :
    (∀ (base : Int) (n : Nat), powerFuel (n + 1) base n = some (power base n)) ∧
    (∀ (base : Int) (n : Nat), power base n = wrap32 (base ^ n)) ∧
    (∀ (base exp : Int), exp < 0 → ∀ fuel, powerFuel fuel base exp = none) :=
  ⟨powerFuel_sufficient, power_eq_wrap_pow,
    fun base exp h fuel => powerFuel_neg base fuel exp h⟩

/-- Claim C10 witness: the termination statement instantiated at base 3
with exponent 2 (the exponent the correction uses) and at exponent -1. -/
theorem c10_power_termination_witness :
    powerFuel 3 3 ((2 : Nat) : Int) = some (power 3 2) ∧
    power 3 2 = wrap32 (3 ^ 2) ∧
    powerFuel 5 3 (-1) = none :=
  ⟨c10_power_termination.1 3 2, c10_power_termination.2.1 3 2,
    c10_power_termination.2.2 3 (-1) (by decide) 5⟩

/-- Claim C1 counterexample: for the raw bytes 0x82, 0x3C, 0x00 the
assembled raw temperature is 8535040 (0x823C00), not the 8540160 the
claim states; with referenceTemp 29024 the difference dTemp is 1104896,
not 1111936; and with tempCoeffOfTemperature 24926 the full pipeline
returns 2211, not 5313. -/
theorem c1_counterexample :
    (getRawTemp rOK).2 = Except.ok 8535040 ∧ ((8535040 : Int) ≠ 8540160) ∧
    calcTempDiff 8535040 29024 = 1104896 ∧ ((1104896 : Int) ≠ 1111936) ∧
    (getTemp rOK devOK).2 = Except.ok 2211 ∧ ((2211 : Int) ≠ 5313) :=
  ⟨rfl, by decide, by decide, by decide, rfl, by decide⟩

/-- Claim C1 amended: for raw bytes 0x82, 0x3C, 0x00 the pipeline
assembles rawTemp = 0x823C00 = 8535040, computes dTemp = 8535040 -
29024 * 256 = 1104896, and returns 2211 centidegrees: the int product
dTemp * 24926 = 27540637696 wraps at 32 bits to 1770833920 before the
division by 2^23 (without the wrap the result would be 2000 + 3283 =
5283). No second-order correction is applied. -/
theorem c1_amended_pipeline :
    (getRawTemp rOK).2 = Except.ok 8535040 ∧
    calcTempDiff 8535040 29024 = 1104896 ∧
    wrap32 (1104896 * 24926) = 1770833920 ∧
    (getTemp rOK devOK).2 = Except.ok 2211 :=
  ⟨rfl, by decide, by decide, rfl⟩

/-- Claim C4: the temperature path assembles the three received bytes
big-endian, but the pressure path (readTemp.c line 201) uses byte 0 in
both the most and least significant position and never uses byte 2: for
bytes 0x01, 0x02, 0x03 it yields 0x010201 = 66049 instead of
0x010203 = 66051. -/
theorem c4_pressure_assembly :
    assembleRawTemp 1 2 3 = 66051 ∧
    assembleRawPressure 1 2 3 = 66049 ∧
    ((66049 : Int) ≠ 66051) :=
  ⟨by decide, by decide, by decide⟩

/-- Claim C5: a positive short read does not abort the calibration or
temperature paths, because their guard is count at most 0: with a 1-byte
PROM read at address 0xA0 the calibration read still returns 7 stores
(the first built from the fresh byte 0xFF and the stale buffer byte 0),
and a 1-byte ADC read still yields a raw temperature built from one real
byte and two zero-padded bytes; meanwhile the pressure path aborts even
on a full 3-byte read because its guard is count at most 3. -/
theorem c5_short_read_checks :
    (getCalibData devShort).2.map List.length = Except.ok 7 ∧
    (getCalibData devShort).2.map (fun l => (l.lookup 0).getD 0) = Except.ok 65280 ∧
    (getRawTemp rShort).2 = Except.ok 8519680 ∧
    (getRawPressure rFull).2 = Except.error () :=
  ⟨rfl, rfl, rfl, rfl⟩

/-- Claim C9: calcPressOffsetAtTemp narrows to 32 bits: with dTemp = 0 and
tempCoeffOfPressOffset = 0, a pressure offset of 40000 yields
40000 * 131072 mod 2^32 = 947912704 instead of the 64-bit value
5242880000 = 40000 * 2^17 + 0 * 0 / 2^6 the specification requires. -/
theorem c9_press_offset_wrap :
    calcPressOffsetAtTemp 0 40000 0 = 947912704 ∧
    ((40000 * 131072 + 0 * 0 / 64 : Int) = 5242880000) ∧
    ((947912704 : Int) ≠ 5242880000) :=
  ⟨by decide, by decide, by decide⟩

/-- Claim C2 counterexample: with an always-succeeding transport the
calibration read populates 7 constants, not 6, and its transaction trace
contains a write of address 0xA0, which lies outside the claimed address
set 0xA2 to 0xAC. -/
theorem c2_counterexample :
    (getCalibData devOK).2.map List.length = Except.ok 7 ∧
    BusEvent.write 0xA0 ∈ (getCalibData devOK).1 ∧ ((7 : Nat) ≠ 6) :=
  ⟨rfl, by decide, by decide⟩

/-- Claim C2 amended: with start/stop bounds 0xA0/0xAE, for every
transport whose writes succeed and whose reads return a positive count,
the calibration read performs exactly 7 two-byte write-address/read
transactions, visiting exactly the addresses 0xA0 through 0xAC inclusive
stepping by 2 and no others, and populates exactly the 7 constants at
prom indices 0 through 6. -/
theorem c2_amended (dev : Nat → CalibResp)
    (h : ∀ a, (dev a).wr = 0 ∧ 0 < (dev a).rdCount) :
    (getCalibData dev).1 =
      [BusEvent.write 0xA0, BusEvent.read 2, BusEvent.write 0xA2, BusEvent.read 2,
       BusEvent.write 0xA4, BusEvent.read 2, BusEvent.write 0xA6, BusEvent.read 2,
       BusEvent.write 0xA8, BusEvent.read 2, BusEvent.write 0xAA, BusEvent.read 2,
       BusEvent.write 0xAC, BusEvent.read 2] ∧
    (getCalibData dev).2.map (fun l => l.map Prod.fst) = Except.ok [0, 1, 2, 3, 4, 5, 6] :=
  calibLoop_ok dev h (PROM_STOP - PROM_START) PROM_START 0 0

/-- Claim C2 witness: the amended statement instantiated at the
always-succeeding transport devOK. -/
theorem c2_amended_witness :
    (getCalibData devOK).1 =
      [BusEvent.write 0xA0, BusEvent.read 2, BusEvent.write 0xA2, BusEvent.read 2,
       BusEvent.write 0xA4, BusEvent.read 2, BusEvent.write 0xA6, BusEvent.read 2,
       BusEvent.write 0xA8, BusEvent.read 2, BusEvent.write 0xAA, BusEvent.read 2,
       BusEvent.write 0xAC, BusEvent.read 2] ∧
    (getCalibData devOK).2.map (fun l => l.map Prod.fst) = Except.ok [0, 1, 2, 3, 4, 5, 6] :=
  c2_amended devOK (fun a => ⟨rfl, show (0 : Int) < 2 by decide⟩)

/-- Claim C3 counterexample: for raw temperature 0x71B208 = 7451144 and
the devOK constants the acquisition cycle returns 2062 - but the
second-order correction at that temperature and dTemp is 67108863, so
temp minus correction would be 2062 - 67108863, not the 2062 the cycle
returns: the correction is not applied. -/
theorem c3_counterexample :
    (getTemp rC3 devOK).2 = Except.ok 2062 ∧
    secondOrderTempComp 2062 (calcTempDiff (toU32 7451144) 29024) = 67108863 ∧
    ((2062 - 67108863 : Int) ≠ 2062) :=
  ⟨rfl, by decide, by decide⟩

/-- Claim C3 amended: whenever the raw read and the calibration read both
succeed, the temperature the acquisition cycle returns is exactly
calcTemp of the raw value and the stored constants - the uncorrected
temperature, since the call to secondOrderTempComp (readTemp.c lines
152-153) is commented out and nothing is subtracted. -/
theorem c3_amended (r : RawResp) (dev : Nat → CalibResp) (raw : Int)
    (stores : List (Nat × Int))
    (h1 : (getRawTemp r).2 = Except.ok raw)
    (h2 : (getCalibData dev).2 = Except.ok stores) :
    (getTemp r dev).2 = Except.ok (calcTemp (wrap32 raw) (promsOf stores)) := by
  rcases hg : getRawTemp r with ⟨t1, res1⟩
  rw [hg] at h1
  simp only at h1
  subst h1
  rcases hc : getCalibData dev with ⟨t2, res2⟩
  rw [hc] at h2
  simp only at h2
  subst h2
  simp [getTemp, hg, hc]

/-- Claim C3 witness: the amended statement instantiated at the
specification scenario's transport responses. -/
theorem c3_amended_witness :
    (getTemp rOK devOK).2 = Except.ok (calcTemp (wrap32 8535040)
      (promsOf [(0, 0), (1, 0), (2, 0), (3, 0), (4, 0), (5, 29024), (6, 24926)])) :=
  c3_amended rOK devOK 8535040
    [(0, 0), (1, 0), (2, 0), (3, 0), (4, 0), (5, 29024), (6, 24926)] rfl rfl

/-- Claim C6 counterexample: with referenceTemp 0 and positive
tempCoeffOfTemperature 24926, the 24-bit raw values 86154 and 172309 are
ordered but their temperatures are not: the first product 86154 * 24926
stays below 2^31 and gives 2255, while the larger product
172309 * 24926 wraps past 2^32 and gives 2000. -/
theorem c6_counterexample :
    ((86154 : Int) ≤ 172309) ∧ (0 < promsZeroRef 6) ∧
    calcTemp 86154 promsZeroRef = 2255 ∧ calcTemp 172309 promsZeroRef = 2000 ∧
    ¬ (calcTemp 86154 promsZeroRef ≤ calcTemp 172309 promsZeroRef) :=
  ⟨by decide, by decide, by decide, by decide, by decide⟩

/-- Claim C6 amended: for fixed calibration constants with positive
tempCoeffOfTemperature, the temperature is monotonic non-decreasing in
rawTemp on the range where dTemp is nonnegative and the product
dTemp * tempCoeffOfTemperature stays below 2^31, so that no 32-bit wrap
occurs. -/
theorem c6_amended (proms : Nat → Int) (raw1 raw2 : Int)
    (h5 : 0 ≤ proms 5) (h6 : 0 < proms 6)
    (hlo : proms 5 * 256 ≤ raw1) (h12 : raw1 ≤ raw2) (hhi : raw2 < 16777216)
    (hnof : (raw2 - proms 5 * 256) * proms 6 < 2147483648) :
    calcTemp raw1 proms ≤ calcTemp raw2 proms := by
  have h6n : (0 : Int) ≤ proms 6 := le_of_lt h6
  have hm : (0 : Int) ≤ proms 5 * 256 := mul_nonneg h5 (by norm_num)
  have h01 : (0 : Int) ≤ raw1 := le_trans hm hlo
  have hd1 : (0 : Int) ≤ raw1 - proms 5 * 256 := by omega
  have hd2 : (0 : Int) ≤ raw2 - proms 5 * 256 := by omega
  have hp1 : (0 : Int) ≤ (raw1 - proms 5 * 256) * proms 6 := mul_nonneg hd1 h6n
  have hp2 : (0 : Int) ≤ (raw2 - proms 5 * 256) * proms 6 := mul_nonneg hd2 h6n
  have hp12 : (raw1 - proms 5 * 256) * proms 6 ≤ (raw2 - proms 5 * 256) * proms 6 :=
    mul_le_mul_of_nonneg_right (by omega) h6n
  have k1 := calcTemp_no_overflow proms raw1 h5 h01 (by omega) hd1 hp1
    (lt_of_le_of_lt hp12 hnof)
  have k2 := calcTemp_no_overflow proms raw2 h5 (by omega) hhi hd2 hp2 hnof
  rw [k1, k2]
  generalize hA : (raw1 - proms 5 * 256) * proms 6 = A at hp1 hp12 ⊢
  generalize hB : (raw2 - proms 5 * 256) * proms 6 = B at hp12 ⊢
  omega

/-- Claim C6 witness: monotonicity applied to the reference constants
29024 and 24926 at the raw values 7430244 and 7430344. -/
theorem c6_amended_witness :
    calcTemp 7430244 promsRef ≤ calcTemp 7430344 promsRef :=
  c6_amended promsRef 7430244 7430344 (by decide) (by decide) (by decide)
    (by decide) (by decide) (by decide)

/-- Claim C7 counterexample: at temp 0 and dTemp 65536 the correction the
code computes is 0, because power squares dTemp in wrapping 32-bit
arithmetic and 65536 * 65536 = 2^32 wraps to 0, while the claimed formula
3 * dTemp * dTemp / 2^32 gives 3. -/
theorem c7_counterexample :
    secondOrderTempComp 0 65536 = 0 ∧
    ((3 * (65536 * 65536) / 4294967296 : Int) = 3) ∧ ((0 : Int) ≠ 3) :=
  ⟨by decide, by decide, by decide⟩

/-- Claim C7 amended: whenever 5 * dTemp * dTemp is below 2^31 (so no
32-bit product wraps), secondOrderTempComp returns exactly
3 * dTemp squared / 2^32 for temp below 2000 and 5 * dTemp squared /
2^38 for temp at least 2000, with truncating division; in particular at
temp = 2000 exactly the 2^38 divisor is used. -/
theorem c7_amended (temp dTemp : Int) (h : 5 * (dTemp * dTemp) < 2147483648) :
    secondOrderTempComp temp dTemp =
      if temp < 2000 then 3 * (dTemp * dTemp) / 4294967296
      else 5 * (dTemp * dTemp) / 274877906944 := by
  have h0 : 0 ≤ dTemp * dTemp := mul_self_nonneg dTemp
  have hsq : dTemp * dTemp < 2147483648 := by linarith
  have hub : dTemp ≤ 46340 := by
    by_contra hc
    push_neg at hc
    have h2 : (46341 : Int) ≤ dTemp := by omega
    have h3 : (46341 : Int) * 46341 ≤ dTemp * dTemp :=
      mul_le_mul h2 h2 (by norm_num) (by omega)
    omega
  have hlb : -46340 ≤ dTemp := by
    by_contra hc
    push_neg at hc
    have h2 : dTemp ≤ -46341 := by omega
    have h3 : (46341 : Int) * 46341 ≤ (-dTemp) * (-dTemp) :=
      mul_le_mul (by omega) (by omega) (by norm_num) (by omega)
    rw [neg_mul_neg] at h3
    omega
  have hpow : power dTemp 2 = dTemp * dTemp := by
    have e1 : power dTemp 2 = wrap32 (dTemp * wrap32 (dTemp * 1)) := rfl
    have einner : wrap32 dTemp = dTemp := wrap32_eq_self (by omega) (by omega)
    rw [e1, mul_one, einner, wrap32_eq_self (by omega) (by omega)]
  simp only [secondOrderTempComp, hpow, toU64, wrap32]
  by_cases ht : temp < 2000
  · rw [if_pos ht, if_pos ht]
    generalize hA : dTemp * dTemp = A at h0 h ⊢
    have e1 : (3 * A + 2147483648) % 4294967296 - 2147483648 = 3 * A := by omega
    rw [e1]
    have e2 : (3 * A) % 18446744073709551616 = 3 * A := by omega
    rw [e2]
    omega
  · rw [if_neg ht, if_neg ht]
    generalize hA : dTemp * dTemp = A at h0 h ⊢
    have e1 : (5 * A + 2147483648) % 4294967296 - 2147483648 = 5 * A := by omega
    rw [e1]
    have e2 : (5 * A) % 18446744073709551616 = 5 * A := by omega
    rw [e2]
    omega

/-- Claim C7 witness: the amended statement at temp 2000 and dTemp 100,
exercising the exactly-2000 branch. -/
theorem c7_amended_witness :
    secondOrderTempComp 2000 100 =
      if (2000 : Int) < 2000 then 3 * ((100 : Int) * 100) / 4294967296
      else 5 * ((100 : Int) * 100) / 274877906944 :=
  c7_amended 2000 100 (by decide)

/-- Claim C8 counterexample: in the acquisition cycle's bus trace the
temperature conversion trigger 0x5A comes before the first calibration
PROM write 0xA0, so the calibration constants are not read before the
conversion is triggered. -/
theorem c8_counterexample :
    BusEvent.write PROM_START ∈ (getTemp rOK devOK).1 ∧
    BusEvent.write CONVERT_D2_OSR8192 ∈ (getTemp rOK devOK).1 ∧
    ¬ ((getTemp rOK devOK).1.findIdx (fun e => e == BusEvent.write PROM_START) <
       (getTemp rOK devOK).1.findIdx (fun e => e == BusEvent.write CONVERT_D2_OSR8192)) := by
  decide

/-- Claim C8 amended: the reset write happens in initGPIO, before the
caller starts the cycle; within getTemp the transactions are, in order,
the raw temperature acquisition (trigger, ADC-read command, 3-byte read)
followed by the calibration readout - the acquisition comes first and the
calibration constants are read after it. -/
theorem c8_amended (r : RawResp) (dev : Nat → CalibResp) (raw : Int)
    (h1 : (getRawTemp r).2 = Except.ok raw) :
    (getTemp r dev).1 = (getRawTemp r).1 ++ (getCalibData dev).1 ∧
    (∃ t, (getTemp r dev).1 = BusEvent.write CONVERT_D2_OSR8192 :: t) ∧
    initGpioTrace = [BusEvent.write CMD_RESET] := by
  obtain ⟨t0, ht0⟩ := getRawTemp_trace r
  rcases hg : getRawTemp r with ⟨t1, res1⟩
  rw [hg] at h1 ht0
  simp only at h1 ht0
  subst h1
  rcases hc : getCalibData dev with ⟨t2, res2⟩
  have htr : (getTemp r dev).1 = t1 ++ t2 := by
    cases res2 <;> simp [getTemp, hg, hc]
  refine ⟨?_, ⟨t0 ++ t2, ?_⟩, rfl⟩
  · rw [htr]
  · rw [htr, ht0, List.cons_append]

/-- Claim C8 witness: the amended statement at the specification
scenario's transport responses. -/
theorem c8_amended_witness :
    (getTemp rOK devOK).1 = (getRawTemp rOK).1 ++ (getCalibData devOK).1 ∧
    (∃ t, (getTemp rOK devOK).1 = BusEvent.write CONVERT_D2_OSR8192 :: t) ∧
    initGpioTrace = [BusEvent.write CMD_RESET] :=
  c8_amended rOK devOK 8535040 rfl
